import Mathlib

/-!
Verification development for the CRT simulator backend
(`crt_parameters.py`, `electron_motion.py`, `lissajous_generator.py`).

Modelling conventions
- Python floats are modelled as exact rationals (`ℚ`); every numeric
  literal of the source is carried over as the same decimal literal.
- `math.sqrt` and `math.sin` are modelled as opaque function parameters
  `(sqrt : ℚ → ℚ)`, `(sin : ℚ → ℚ)`: no claim under study depends on an
  analytic property of either, only on how their results are combined.
- `math.pi` is modelled as the rational `3.141592653589793`, the shortest
  decimal that round-trips to the binary64 value Python uses.
- A Python function that raises `ValueError` is modelled as returning
  `Except`; the `ValueError` messages are modelled as structured error
  values carrying the offending number, which is what the message
  interpolates.
- The `try/except` wrappers return dictionaries holding an `'error'` entry
  together with zero-filled numeric entries; these are modelled as a
  dedicated constructor carrying both the error and those literal payload
  values, exactly as the source writes them.
-/

namespace CRT

/-! ## crt_parameters.py — parameter catalog -/

def CARGA_ELECTRON : ℚ := -1.602176634e-19

def MASA_ELECTRON : ℚ := 9.1093837015e-31

def TAMANO_PANTALLA : ℚ := 0.20

def ANCHO_PANTALLA : ℚ := TAMANO_PANTALLA

def ALTO_PANTALLA : ℚ := TAMANO_PANTALLA

def ANCHO_PLACAS_VERTICALES : ℚ := 0.04

def SEPARACION_PLACAS_VERTICALES : ℚ := 0.015

def ANCHO_PLACAS_HORIZONTALES : ℚ := 0.06

def SEPARACION_PLACAS_HORIZONTALES : ℚ := 0.015

def DISTANCIA_CANON_A_PLACAS_VERTICALES : ℚ := 0.05

def DISTANCIA_PLACAS_VERTICALES_A_HORIZONTALES : ℚ := 0.03

def DISTANCIA_PLACAS_HORIZONTALES_A_PANTALLA : ℚ := 0.15

def VOLTAJE_ACELERACION_MIN : ℚ := 500

def VOLTAJE_ACELERACION_MAX : ℚ := 5000

def VOLTAJE_VERTICAL_MIN : ℚ := -200

def VOLTAJE_VERTICAL_MAX : ℚ := 200

def VOLTAJE_HORIZONTAL_MIN : ℚ := -200

def VOLTAJE_HORIZONTAL_MAX : ℚ := 200

def validar_voltaje_aceleracion (voltaje : ℚ) : Bool :=
  decide (VOLTAJE_ACELERACION_MIN ≤ voltaje ∧ voltaje ≤ VOLTAJE_ACELERACION_MAX)

def validar_voltaje_vertical (voltaje : ℚ) : Bool :=
  decide (VOLTAJE_VERTICAL_MIN ≤ voltaje ∧ voltaje ≤ VOLTAJE_VERTICAL_MAX)

def validar_voltaje_horizontal (voltaje : ℚ) : Bool :=
  decide (VOLTAJE_HORIZONTAL_MIN ≤ voltaje ∧ voltaje ≤ VOLTAJE_HORIZONTAL_MAX)

/-! ## electron_motion.py — trajectory engine -/

/-- The `ValueError`s `electron_motion.py` raises, keyed by the voltage the
message interpolates. -/
inductive CRTError where
  | voltajeAceleracionFueraDeRango (voltaje : ℚ)
  | voltajeVerticalFueraDeRango (voltaje : ℚ)
  | voltajeHorizontalFueraDeRango (voltaje : ℚ)
deriving DecidableEq, Repr

def calcular_velocidad_inicial (sqrt : ℚ → ℚ) (voltaje_aceleracion : ℚ) :
    Except CRTError ℚ :=
  if !validar_voltaje_aceleracion voltaje_aceleracion then
    .error (.voltajeAceleracionFueraDeRango voltaje_aceleracion)
  else
    let energia_cinetica := |CARGA_ELECTRON| * voltaje_aceleracion
    .ok (sqrt (2 * energia_cinetica / MASA_ELECTRON))

def calcular_campo_electrico_vertical (voltaje_vertical : ℚ) : Except CRTError ℚ :=
  if !validar_voltaje_vertical voltaje_vertical then
    .error (.voltajeVerticalFueraDeRango voltaje_vertical)
  else
    .ok (voltaje_vertical / SEPARACION_PLACAS_VERTICALES)

def calcular_campo_electrico_horizontal (voltaje_horizontal : ℚ) : Except CRTError ℚ :=
  if !validar_voltaje_horizontal voltaje_horizontal then
    .error (.voltajeHorizontalFueraDeRango voltaje_horizontal)
  else
    .ok (voltaje_horizontal / SEPARACION_PLACAS_HORIZONTALES)

def calcular_aceleracion (campo_electrico : ℚ) : ℚ :=
  CARGA_ELECTRON * campo_electrico / MASA_ELECTRON

structure MovimientoVertical where
  deflexion : ℚ
  velocidad_vertical : ℚ
  tiempo_en_placas : ℚ
deriving DecidableEq, Repr

def calcular_movimiento_en_placas_verticales (velocidad_inicial voltaje_vertical : ℚ) :
    Except CRTError MovimientoVertical := do
  let tiempo_en_placas := ANCHO_PLACAS_VERTICALES / velocidad_inicial
  let campo_vertical ← calcular_campo_electrico_vertical voltaje_vertical
  let aceleracion_vertical := calcular_aceleracion campo_vertical
  pure { deflexion := 0.5 * aceleracion_vertical * tiempo_en_placas ^ 2
         velocidad_vertical := aceleracion_vertical * tiempo_en_placas
         tiempo_en_placas := tiempo_en_placas }

structure MovimientoHorizontal where
  deflexion_horizontal : ℚ
  deflexion_vertical_adicional : ℚ
  velocidad_horizontal : ℚ
  tiempo_en_placas : ℚ
deriving DecidableEq, Repr

def calcular_movimiento_en_placas_horizontales
    (velocidad_inicial velocidad_vertical voltaje_horizontal : ℚ) :
    Except CRTError MovimientoHorizontal := do
  let tiempo_en_placas := ANCHO_PLACAS_HORIZONTALES / velocidad_inicial
  let campo_horizontal ← calcular_campo_electrico_horizontal voltaje_horizontal
  let aceleracion_horizontal := calcular_aceleracion campo_horizontal
  pure { deflexion_horizontal := 0.5 * aceleracion_horizontal * tiempo_en_placas ^ 2
         deflexion_vertical_adicional := velocidad_vertical * tiempo_en_placas
         velocidad_horizontal := aceleracion_horizontal * tiempo_en_placas
         tiempo_en_placas := tiempo_en_placas }

structure MovimientoLibre where
  deflexion_vertical_libre : ℚ
  deflexion_horizontal_libre : ℚ
  tiempo_vuelo_libre : ℚ
deriving DecidableEq, Repr

def calcular_movimiento_libre_hasta_pantalla
    (velocidad_inicial velocidad_vertical velocidad_horizontal : ℚ) : MovimientoLibre :=
  let tiempo_vuelo_libre := DISTANCIA_PLACAS_HORIZONTALES_A_PANTALLA / velocidad_inicial
  { deflexion_vertical_libre := velocidad_vertical * tiempo_vuelo_libre
    deflexion_horizontal_libre := velocidad_horizontal * tiempo_vuelo_libre
    tiempo_vuelo_libre := tiempo_vuelo_libre }

structure TrajectoryResult where
  posicion_x : ℚ
  posicion_y : ℚ
  dentro_pantalla : Bool
  velocidad_inicial : ℚ
  velocidad_final_x : ℚ
  velocidad_final_y : ℚ
  tiempo_total : ℚ
deriving DecidableEq, Repr

/-- The dictionary `calcular_posicion_final_electron` returns: either the
success payload, or the `except` branch's payload, which carries the error
string (here its structured form) TOGETHER with the literal entries
`posicion_x`, `posicion_y` and `dentro_pantalla` the source writes there. -/
inductive TrajectoryOutput where
  | ok (result : TrajectoryResult)
  | err (e : CRTError) (posicion_x posicion_y : ℚ) (dentro_pantalla : Bool)
deriving DecidableEq, Repr

def calcular_posicion_final_electron (sqrt : ℚ → ℚ)
    (voltaje_aceleracion voltaje_vertical voltaje_horizontal : ℚ) : TrajectoryOutput :=
  let computation : Except CRTError TrajectoryResult := do
    -- Paso 1: velocidad inicial por aceleracion
    let velocidad_inicial ← calcular_velocidad_inicial sqrt voltaje_aceleracion
    -- Paso 2: movimiento en placas verticales
    let resultado_vertical ← calcular_movimiento_en_placas_verticales
      velocidad_inicial voltaje_vertical
    let deflexion_y_placas_verticales := resultado_vertical.deflexion
    let velocidad_vertical := resultado_vertical.velocidad_vertical
    -- Paso 3: vuelo libre entre placas verticales y horizontales
    let tiempo_entre_placas := DISTANCIA_PLACAS_VERTICALES_A_HORIZONTALES / velocidad_inicial
    let deflexion_y_entre_placas := velocidad_vertical * tiempo_entre_placas
    -- Paso 4: movimiento en placas horizontales
    let resultado_horizontal ← calcular_movimiento_en_placas_horizontales
      velocidad_inicial velocidad_vertical voltaje_horizontal
    let deflexion_x_placas_horizontales := resultado_horizontal.deflexion_horizontal
    let deflexion_y_placas_horizontales := resultado_horizontal.deflexion_vertical_adicional
    let velocidad_horizontal := resultado_horizontal.velocidad_horizontal
    -- Paso 5: vuelo libre hasta la pantalla
    let resultado_libre := calcular_movimiento_libre_hasta_pantalla
      velocidad_inicial velocidad_vertical velocidad_horizontal
    let deflexion_x_libre := resultado_libre.deflexion_horizontal_libre
    let deflexion_y_libre := resultado_libre.deflexion_vertical_libre
    -- Paso 6: posicion final en la pantalla
    let posicion_x_final := deflexion_x_placas_horizontales + deflexion_x_libre
    let posicion_y_final := deflexion_y_placas_verticales + deflexion_y_entre_placas +
      deflexion_y_placas_horizontales + deflexion_y_libre
    let dentro_pantalla_x := decide (|posicion_x_final| ≤ ANCHO_PANTALLA / 2)
    let dentro_pantalla_y := decide (|posicion_y_final| ≤ ALTO_PANTALLA / 2)
    pure { posicion_x := posicion_x_final
           posicion_y := posicion_y_final
           dentro_pantalla := dentro_pantalla_x && dentro_pantalla_y
           velocidad_inicial := velocidad_inicial
           velocidad_final_x := velocidad_horizontal
           velocidad_final_y := velocidad_vertical
           tiempo_total := resultado_vertical.tiempo_en_placas + tiempo_entre_placas +
             resultado_horizontal.tiempo_en_placas + resultado_libre.tiempo_vuelo_libre }
  match computation with
  | .ok r => .ok r
  | .error e => .err e 0 0 false

/-! ## lissajous_generator.py — signal generator -/

/-- `math.pi` as the shortest decimal that round-trips to Python's binary64
value. -/
def MATH_PI : ℚ := 3.141592653589793

def FRECUENCIA_MIN : ℚ := 0.1

def FRECUENCIA_MAX : ℚ := 10.0

def FASE_MIN : ℚ := 0.0

def FASE_MAX : ℚ := 2 * MATH_PI

def validar_frecuencia (frecuencia : ℚ) : Bool :=
  decide (FRECUENCIA_MIN ≤ frecuencia ∧ frecuencia ≤ FRECUENCIA_MAX)

def validar_fase (fase : ℚ) : Bool :=
  decide (FASE_MIN ≤ fase ∧ fase ≤ FASE_MAX)

def validar_amplitud_vertical (amplitud : ℚ) : Bool :=
  decide (amplitud ≤ min |VOLTAJE_VERTICAL_MIN| |VOLTAJE_VERTICAL_MAX|)

def validar_amplitud_horizontal (amplitud : ℚ) : Bool :=
  decide (amplitud ≤ min |VOLTAJE_HORIZONTAL_MIN| |VOLTAJE_HORIZONTAL_MAX|)

/-- The `ValueError`s `lissajous_generator.py` raises, keyed by the number
(or missing dictionary key) the message interpolates. -/
inductive LissajousError where
  | faltaParametro (key : String)
  | frecuenciaVerticalFueraDeRango (frecuencia : ℚ)
  | amplitudVerticalFueraDeRango (amplitud : ℚ)
  | frecuenciaHorizontalFueraDeRango (frecuencia : ℚ)
  | amplitudHorizontalFueraDeRango (amplitud : ℚ)
deriving DecidableEq, Repr

def generar_senal_vertical (sin : ℚ → ℚ)
    (tiempo frecuencia_vertical fase_vertical amplitud_vertical : ℚ) :
    Except LissajousError ℚ :=
  if !validar_frecuencia frecuencia_vertical then
    .error (.frecuenciaVerticalFueraDeRango frecuencia_vertical)
  else if !validar_amplitud_vertical amplitud_vertical then
    .error (.amplitudVerticalFueraDeRango amplitud_vertical)
  else
    let voltaje_vertical :=
      amplitud_vertical * sin (2 * MATH_PI * frecuencia_vertical * tiempo + fase_vertical)
    .ok (max VOLTAJE_VERTICAL_MIN (min VOLTAJE_VERTICAL_MAX voltaje_vertical))

def generar_senal_horizontal (sin : ℚ → ℚ)
    (tiempo frecuencia_horizontal fase_horizontal amplitud_horizontal : ℚ) :
    Except LissajousError ℚ :=
  if !validar_frecuencia frecuencia_horizontal then
    .error (.frecuenciaHorizontalFueraDeRango frecuencia_horizontal)
  else if !validar_amplitud_horizontal amplitud_horizontal then
    .error (.amplitudHorizontalFueraDeRango amplitud_horizontal)
  else
    let voltaje_horizontal :=
      amplitud_horizontal * sin (2 * MATH_PI * frecuencia_horizontal * tiempo + fase_horizontal)
    .ok (max VOLTAJE_HORIZONTAL_MIN (min VOLTAJE_HORIZONTAL_MAX voltaje_horizontal))

/-- The `config_lissajous` dictionary restricted to the six keys the
generator consults; `none` models an absent key. -/
structure ConfigMap where
  frecuencia_vertical : Option ℚ
  fase_vertical : Option ℚ
  amplitud_vertical : Option ℚ
  frecuencia_horizontal : Option ℚ
  fase_horizontal : Option ℚ
  amplitud_horizontal : Option ℚ
deriving DecidableEq, Repr

/-- The `required_keys` presence check: `raise ValueError(f"Falta parámetro
en configuración: {key}")` on the first absent key. -/
def requireParam (key : String) (valor : Option ℚ) : Except LissajousError ℚ :=
  match valor with
  | some x => .ok x
  | none => .error (.faltaParametro key)

structure SignalSample where
  voltaje_vertical : ℚ
  voltaje_horizontal : ℚ
  tiempo : ℚ
deriving DecidableEq, Repr

/-- The dictionary `generar_voltajes_lissajous` returns: the success payload
(the `debug_info` entry, which merely echoes the inputs, is not modelled),
or the `except` branch's payload carrying the error together with the
literal entries `voltaje_vertical = 0`, `voltaje_horizontal = 0` and the
original `tiempo`. -/
inductive SignalOutput where
  | ok (sample : SignalSample)
  | err (e : LissajousError) (voltaje_vertical voltaje_horizontal tiempo : ℚ)
deriving DecidableEq, Repr

/-- The body of `generar_voltajes_lissajous`'s `try` block: key checks in
`required_keys` order, time normalisation, then both signal evaluations. -/
def generar_voltajes_core (sin : ℚ → ℚ) (tiempo : ℚ) (config : ConfigMap) :
    Except LissajousError SignalSample := do
    -- Validar configuración: required_keys en orden
    let frecuencia_vertical ← requireParam "frecuencia_vertical" config.frecuencia_vertical
    let fase_vertical ← requireParam "fase_vertical" config.fase_vertical
    let amplitud_vertical ← requireParam "amplitud_vertical" config.amplitud_vertical
    let frecuencia_horizontal ← requireParam "frecuencia_horizontal" config.frecuencia_horizontal
    let fase_horizontal ← requireParam "fase_horizontal" config.fase_horizontal
    let amplitud_horizontal ← requireParam "amplitud_horizontal" config.amplitud_horizontal
    -- Asegurar que el tiempo sea >= 0
    let tiempo_normalizado := max 0 tiempo
    let voltaje_vertical ← generar_senal_vertical sin tiempo_normalizado
      frecuencia_vertical fase_vertical amplitud_vertical
    let voltaje_horizontal ← generar_senal_horizontal sin tiempo_normalizado
      frecuencia_horizontal fase_horizontal amplitud_horizontal
    pure { voltaje_vertical := voltaje_vertical
           voltaje_horizontal := voltaje_horizontal
           tiempo := tiempo_normalizado }

def generar_voltajes_lissajous (sin : ℚ → ℚ) (tiempo : ℚ) (config : ConfigMap) :
    SignalOutput :=
  match generar_voltajes_core sin tiempo config with
  | .ok s => .ok s
  | .error e => .err e 0 0 tiempo

/-- One element of the list built by `generar_secuencia_lissajous`: the
dictionary returned by `generar_voltajes_lissajous` extended with the
`frame`, `tiempo_total` and `fps` entries. -/
structure FrameSample where
  voltajes : SignalOutput
  frame : ℕ
  tiempo_total : ℚ
  fps : ℚ
deriving DecidableEq, Repr

/-- Python's `int(...)` on a float: truncation toward zero. -/
def pyInt (q : ℚ) : ℤ :=
  if 0 ≤ q then ⌊q⌋ else ⌈q⌉

def generar_secuencia_lissajous (sin : ℚ → ℚ) (config : ConfigMap)
    (duracion_segundos fps : ℚ) : List FrameSample :=
  let num_frames := (pyInt (duracion_segundos * fps)).toNat
  (List.range num_frames).map fun (frame : ℕ) =>
    let tiempo_actual := (frame : ℚ) / fps
    { voltajes := generar_voltajes_lissajous sin tiempo_actual config
      frame := frame
      tiempo_total := duracion_segundos
      fps := fps }

def calcular_periodo_lissajous (frecuencia_vertical frecuencia_horizontal : ℚ) : ℚ :=
  let periodo_vertical := 1.0 / frecuencia_vertical
  let periodo_horizontal := 1.0 / frecuencia_horizontal
  max periodo_vertical periodo_horizontal * 10

/-- The full six-field configuration dictionary (`config_actual` in
`actualizar_parametros_lissajous`). -/
structure LissajousConfig where
  frecuencia_vertical : ℚ
  fase_vertical : ℚ
  amplitud_vertical : ℚ
  frecuencia_horizontal : ℚ
  fase_horizontal : ℚ
  amplitud_horizontal : ℚ
deriving DecidableEq, Repr

/-- The first `if`-block of `actualizar_parametros_lissajous`: if the key
is present in `nuevos_parametros` and its value passes the validator, set
it on `config_actualizada`, else leave the record alone.  The remaining
five blocks follow, one definition per block. -/
def actualizar_paso_frecuencia_vertical (nuevos_parametros : ConfigMap)
    (config_actualizada : LissajousConfig) : LissajousConfig :=
  match nuevos_parametros.frecuencia_vertical with
  | some v =>
      if validar_frecuencia v then { config_actualizada with frecuencia_vertical := v }
      else config_actualizada
  | none => config_actualizada

def actualizar_paso_fase_vertical (nuevos_parametros : ConfigMap)
    (config_actualizada : LissajousConfig) : LissajousConfig :=
  match nuevos_parametros.fase_vertical with
  | some v =>
      if validar_fase v then { config_actualizada with fase_vertical := v }
      else config_actualizada
  | none => config_actualizada

def actualizar_paso_amplitud_vertical (nuevos_parametros : ConfigMap)
    (config_actualizada : LissajousConfig) : LissajousConfig :=
  match nuevos_parametros.amplitud_vertical with
  | some v =>
      if validar_amplitud_vertical v then { config_actualizada with amplitud_vertical := v }
      else config_actualizada
  | none => config_actualizada

def actualizar_paso_frecuencia_horizontal (nuevos_parametros : ConfigMap)
    (config_actualizada : LissajousConfig) : LissajousConfig :=
  match nuevos_parametros.frecuencia_horizontal with
  | some v =>
      if validar_frecuencia v then { config_actualizada with frecuencia_horizontal := v }
      else config_actualizada
  | none => config_actualizada

def actualizar_paso_fase_horizontal (nuevos_parametros : ConfigMap)
    (config_actualizada : LissajousConfig) : LissajousConfig :=
  match nuevos_parametros.fase_horizontal with
  | some v =>
      if validar_fase v then { config_actualizada with fase_horizontal := v }
      else config_actualizada
  | none => config_actualizada

def actualizar_paso_amplitud_horizontal (nuevos_parametros : ConfigMap)
    (config_actualizada : LissajousConfig) : LissajousConfig :=
  match nuevos_parametros.amplitud_horizontal with
  | some v =>
      if validar_amplitud_horizontal v then { config_actualizada with amplitud_horizontal := v }
      else config_actualizada
  | none => config_actualizada

/-- `actualizar_parametros_lissajous`.  Python mutates only
`config_actualizada = config_actual.copy()`; that heap behaviour is made
explicit by returning the pair (caller's `config_actual` object as it
stands after the call, returned `config_actualizada`): every per-field
update step is applied to the copy, never to the first component. -/
def actualizar_parametros_lissajous (config_actual : LissajousConfig)
    (nuevos_parametros : ConfigMap) : LissajousConfig × LissajousConfig :=
  let config_actualizada := config_actual
  let config_actualizada := actualizar_paso_frecuencia_vertical nuevos_parametros config_actualizada
  let config_actualizada := actualizar_paso_fase_vertical nuevos_parametros config_actualizada
  let config_actualizada := actualizar_paso_amplitud_vertical nuevos_parametros config_actualizada
  let config_actualizada := actualizar_paso_frecuencia_horizontal nuevos_parametros config_actualizada
  let config_actualizada := actualizar_paso_fase_horizontal nuevos_parametros config_actualizada
  let config_actualizada := actualizar_paso_amplitud_horizontal nuevos_parametros config_actualizada
  (config_actual, config_actualizada)

end CRT

namespace CRT

/-- Spec-side vertical decomposition of claim C3: the sum of the vertical
contributions of stages 2-5 — half·a_v·t_v² inside the vertical plates,
plus v_y·t for the inter-plate drift, the horizontal-plate transit and the
free flight — every transit time divided by the same forward speed `v0`. -/
def contribucion_y_spec (v0 voltaje_vertical : ℚ) : ℚ :=
  let a_v := CARGA_ELECTRON * (voltaje_vertical / SEPARACION_PLACAS_VERTICALES) / MASA_ELECTRON
  let t_v := ANCHO_PLACAS_VERTICALES / v0
  let v_y := a_v * t_v
  0.5 * a_v * t_v ^ 2
    + v_y * (DISTANCIA_PLACAS_VERTICALES_A_HORIZONTALES / v0)
    + v_y * (ANCHO_PLACAS_HORIZONTALES / v0)
    + v_y * (DISTANCIA_PLACAS_HORIZONTALES_A_PANTALLA / v0)

/-- Spec-side horizontal decomposition of claim C3: the sum of the
horizontal contributions of stages 4-5 only — half·a_h·t_h² inside the
horizontal plates plus v_x·t_free — with the same forward speed `v0`. -/
def contribucion_x_spec (v0 voltaje_horizontal : ℚ) : ℚ :=
  let a_h := CARGA_ELECTRON * (voltaje_horizontal / SEPARACION_PLACAS_HORIZONTALES) / MASA_ELECTRON
  let t_h := ANCHO_PLACAS_HORIZONTALES / v0
  let v_x := a_h * t_h
  0.5 * a_h * t_h ^ 2 + v_x * (DISTANCIA_PLACAS_HORIZONTALES_A_PANTALLA / v0)

/-- Spec-side per-field merge of claim C6: a field present in the patch
and passing its validator is taken from the patch; a field absent from the
patch, or failing validation, keeps the current value. -/
def campo_fusionado_spec (valid : ℚ → Bool) (patch : Option ℚ) (actual : ℚ) : ℚ :=
  match patch with
  | some v => if valid v then v else actual
  | none => actual

/-- Reduction of `calcular_posicion_final_electron` on inputs that pass all
three range checks: the success record, with every field spelled out the
way the source computes it. -/
lemma calcular_posicion_final_electron_of_valid (sqrt : ℚ → ℚ) (va vv vh : ℚ)
    (ha : validar_voltaje_aceleracion va = true)
    (hv : validar_voltaje_vertical vv = true)
    (hh : validar_voltaje_horizontal vh = true) :
    calcular_posicion_final_electron sqrt va vv vh =
      let v0 := sqrt (2 * (|CARGA_ELECTRON| * va) / MASA_ELECTRON)
      let t_v := ANCHO_PLACAS_VERTICALES / v0
      let a_v := calcular_aceleracion (vv / SEPARACION_PLACAS_VERTICALES)
      let vy := a_v * t_v
      let t_mid := DISTANCIA_PLACAS_VERTICALES_A_HORIZONTALES / v0
      let t_h := ANCHO_PLACAS_HORIZONTALES / v0
      let a_h := calcular_aceleracion (vh / SEPARACION_PLACAS_HORIZONTALES)
      let vx := a_h * t_h
      let t_free := DISTANCIA_PLACAS_HORIZONTALES_A_PANTALLA / v0
      let x := 0.5 * a_h * t_h ^ 2 + vx * t_free
      let y := 0.5 * a_v * t_v ^ 2 + vy * t_mid + vy * t_h + vy * t_free
      .ok { posicion_x := x
            posicion_y := y
            dentro_pantalla := decide (|x| ≤ ANCHO_PANTALLA / 2) &&
              decide (|y| ≤ ALTO_PANTALLA / 2)
            velocidad_inicial := v0
            velocidad_final_x := vx
            velocidad_final_y := vy
            tiempo_total := t_v + t_mid + t_h + t_free } := by
  unfold calcular_posicion_final_electron calcular_velocidad_inicial
    calcular_movimiento_en_placas_verticales calcular_campo_electrico_vertical
    calcular_movimiento_en_placas_horizontales calcular_campo_electrico_horizontal
    calcular_movimiento_libre_hasta_pantalla
  rw [ha, hv, hh]
  rfl

lemma except_bind_ok {ε α β : Type} {x : Except ε α} {f : α → Except ε β} {b : β}
    (h : x >>= f = .ok b) : ∃ a, x = .ok a ∧ f a = .ok b := by
  cases x with
  | ok a => exact ⟨a, rfl, h⟩
  | error e => simp [Bind.bind, Except.bind] at h

lemma generar_voltajes_ok_iff_core (sin : ℚ → ℚ) (t : ℚ) (config : ConfigMap)
    (s : SignalSample) :
    generar_voltajes_lissajous sin t config = .ok s ↔
      generar_voltajes_core sin t config = .ok s := by
  cases h : generar_voltajes_core sin t config <;>
    simp [generar_voltajes_lissajous, h]

lemma generar_senal_vertical_ok_inv {sin : ℚ → ℚ} {t f φ A v : ℚ}
    (h : generar_senal_vertical sin t f φ A = .ok v) :
    v = max VOLTAJE_VERTICAL_MIN (min VOLTAJE_VERTICAL_MAX
      (A * sin (2 * MATH_PI * f * t + φ))) := by
  unfold generar_senal_vertical at h
  split at h
  · exact absurd h (by simp)
  split at h
  · exact absurd h (by simp)
  · exact (Except.ok.inj h).symm

lemma generar_senal_horizontal_ok_inv {sin : ℚ → ℚ} {t f φ A v : ℚ}
    (h : generar_senal_horizontal sin t f φ A = .ok v) :
    v = max VOLTAJE_HORIZONTAL_MIN (min VOLTAJE_HORIZONTAL_MAX
      (A * sin (2 * MATH_PI * f * t + φ))) := by
  unfold generar_senal_horizontal at h
  split at h
  · exact absurd h (by simp)
  split at h
  · exact absurd h (by simp)
  · exact (Except.ok.inj h).symm

/-- Inversion of a successful sample: the time entry is the normalised
time and each voltage is the clamped sinusoidal value, hence bounded by
the legal voltage interval. -/
lemma generar_voltajes_ok_inv {sin : ℚ → ℚ} {t : ℚ} {config : ConfigMap}
    {s : SignalSample} (h : generar_voltajes_lissajous sin t config = .ok s) :
    s.tiempo = max 0 t ∧
    VOLTAJE_VERTICAL_MIN ≤ s.voltaje_vertical ∧
    s.voltaje_vertical ≤ VOLTAJE_VERTICAL_MAX ∧
    VOLTAJE_HORIZONTAL_MIN ≤ s.voltaje_horizontal ∧
    s.voltaje_horizontal ≤ VOLTAJE_HORIZONTAL_MAX := by
  rw [generar_voltajes_ok_iff_core] at h
  unfold generar_voltajes_core at h
  obtain ⟨fv, -, h⟩ := except_bind_ok h
  obtain ⟨φv, -, h⟩ := except_bind_ok h
  obtain ⟨Av, -, h⟩ := except_bind_ok h
  obtain ⟨fh, -, h⟩ := except_bind_ok h
  obtain ⟨φh, -, h⟩ := except_bind_ok h
  obtain ⟨Ah, -, h⟩ := except_bind_ok h
  obtain ⟨vv, hvv, h⟩ := except_bind_ok h
  obtain ⟨vh, hvh, h⟩ := except_bind_ok h
  obtain rfl : SignalSample.mk vv vh (max 0 t) = s := Except.ok.inj h
  refine ⟨rfl, ?_, ?_, ?_, ?_⟩
  · rw [generar_senal_vertical_ok_inv hvv]; exact le_max_left _ _
  · rw [generar_senal_vertical_ok_inv hvv]
    exact max_le (by norm_num [VOLTAJE_VERTICAL_MIN, VOLTAJE_VERTICAL_MAX])
      (min_le_left _ _)
  · rw [generar_senal_horizontal_ok_inv hvh]; exact le_max_left _ _
  · rw [generar_senal_horizontal_ok_inv hvh]
    exact max_le (by norm_num [VOLTAJE_HORIZONTAL_MIN, VOLTAJE_HORIZONTAL_MAX])
      (min_le_left _ _)

/-- Reduction of `generar_voltajes_lissajous` on a complete configuration
whose frequencies and amplitudes pass their checks (the phases are not
checked by the code). -/
lemma generar_voltajes_ok_of_valid (sin : ℚ → ℚ) (t fv φv Av fh φh Ah : ℚ)
    (h1 : validar_frecuencia fv = true) (h2 : validar_amplitud_vertical Av = true)
    (h3 : validar_frecuencia fh = true) (h4 : validar_amplitud_horizontal Ah = true) :
    generar_voltajes_lissajous sin t ⟨some fv, some φv, some Av, some fh, some φh, some Ah⟩ =
      .ok { voltaje_vertical := max VOLTAJE_VERTICAL_MIN (min VOLTAJE_VERTICAL_MAX
              (Av * sin (2 * MATH_PI * fv * max 0 t + φv)))
            voltaje_horizontal := max VOLTAJE_HORIZONTAL_MIN (min VOLTAJE_HORIZONTAL_MAX
              (Ah * sin (2 * MATH_PI * fh * max 0 t + φh)))
            tiempo := max 0 t } := by
  unfold generar_voltajes_lissajous generar_voltajes_core requireParam
    generar_senal_vertical generar_senal_horizontal
  simp only [Bind.bind, Except.bind, h1, h2, h3, h4]
  rfl

lemma validar_frecuencia_1 : validar_frecuencia 1 = true := by
  simp only [validar_frecuencia, FRECUENCIA_MIN, FRECUENCIA_MAX]
  norm_num

lemma validar_frecuencia_50 : validar_frecuencia 50 = false := by
  simp only [validar_frecuencia, FRECUENCIA_MIN, FRECUENCIA_MAX]
  norm_num

lemma validar_fase_7 : validar_fase 7 = false := by
  simp only [validar_fase, FASE_MIN, FASE_MAX, MATH_PI]
  norm_num

lemma validar_amplitud_vertical_100 : validar_amplitud_vertical 100 = true := by
  simp only [validar_amplitud_vertical, VOLTAJE_VERTICAL_MIN, VOLTAJE_VERTICAL_MAX]
  norm_num

lemma validar_amplitud_horizontal_100 : validar_amplitud_horizontal 100 = true := by
  simp only [validar_amplitud_horizontal, VOLTAJE_HORIZONTAL_MIN, VOLTAJE_HORIZONTAL_MAX]
  norm_num

lemma validar_amplitud_vertical_neg1000 : validar_amplitud_vertical (-1000) = true := by
  simp only [validar_amplitud_vertical, VOLTAJE_VERTICAL_MIN, VOLTAJE_VERTICAL_MAX]
  norm_num

lemma validar_amplitud_horizontal_neg1000 : validar_amplitud_horizontal (-1000) = true := by
  simp only [validar_amplitud_horizontal, VOLTAJE_HORIZONTAL_MIN, VOLTAJE_HORIZONTAL_MAX]
  norm_num

lemma paso_frecuencia_vertical_eq (n : ConfigMap) (cfg : LissajousConfig) :
    actualizar_paso_frecuencia_vertical n cfg =
      { cfg with frecuencia_vertical :=
          campo_fusionado_spec validar_frecuencia n.frecuencia_vertical cfg.frecuencia_vertical } := by
  cases h : n.frecuencia_vertical
  · simp [actualizar_paso_frecuencia_vertical, campo_fusionado_spec, h]
  · rename_i v
    by_cases hv : validar_frecuencia v <;>
      simp [actualizar_paso_frecuencia_vertical, campo_fusionado_spec, h, hv]

lemma paso_fase_vertical_eq (n : ConfigMap) (cfg : LissajousConfig) :
    actualizar_paso_fase_vertical n cfg =
      { cfg with fase_vertical :=
          campo_fusionado_spec validar_fase n.fase_vertical cfg.fase_vertical } := by
  cases h : n.fase_vertical
  · simp [actualizar_paso_fase_vertical, campo_fusionado_spec, h]
  · rename_i v
    by_cases hv : validar_fase v <;>
      simp [actualizar_paso_fase_vertical, campo_fusionado_spec, h, hv]

lemma paso_amplitud_vertical_eq (n : ConfigMap) (cfg : LissajousConfig) :
    actualizar_paso_amplitud_vertical n cfg =
      { cfg with amplitud_vertical :=
          campo_fusionado_spec validar_amplitud_vertical n.amplitud_vertical cfg.amplitud_vertical } := by
  cases h : n.amplitud_vertical
  · simp [actualizar_paso_amplitud_vertical, campo_fusionado_spec, h]
  · rename_i v
    by_cases hv : validar_amplitud_vertical v <;>
      simp [actualizar_paso_amplitud_vertical, campo_fusionado_spec, h, hv]

lemma paso_frecuencia_horizontal_eq (n : ConfigMap) (cfg : LissajousConfig) :
    actualizar_paso_frecuencia_horizontal n cfg =
      { cfg with frecuencia_horizontal :=
          campo_fusionado_spec validar_frecuencia n.frecuencia_horizontal cfg.frecuencia_horizontal } := by
  cases h : n.frecuencia_horizontal
  · simp [actualizar_paso_frecuencia_horizontal, campo_fusionado_spec, h]
  · rename_i v
    by_cases hv : validar_frecuencia v <;>
      simp [actualizar_paso_frecuencia_horizontal, campo_fusionado_spec, h, hv]

lemma paso_fase_horizontal_eq (n : ConfigMap) (cfg : LissajousConfig) :
    actualizar_paso_fase_horizontal n cfg =
      { cfg with fase_horizontal :=
          campo_fusionado_spec validar_fase n.fase_horizontal cfg.fase_horizontal } := by
  cases h : n.fase_horizontal
  · simp [actualizar_paso_fase_horizontal, campo_fusionado_spec, h]
  · rename_i v
    by_cases hv : validar_fase v <;>
      simp [actualizar_paso_fase_horizontal, campo_fusionado_spec, h, hv]

lemma paso_amplitud_horizontal_eq (n : ConfigMap) (cfg : LissajousConfig) :
    actualizar_paso_amplitud_horizontal n cfg =
      { cfg with amplitud_horizontal :=
          campo_fusionado_spec validar_amplitud_horizontal n.amplitud_horizontal cfg.amplitud_horizontal } := by
  cases h : n.amplitud_horizontal
  · simp [actualizar_paso_amplitud_horizontal, campo_fusionado_spec, h]
  · rename_i v
    by_cases hv : validar_amplitud_horizontal v <;>
      simp [actualizar_paso_amplitud_horizontal, campo_fusionado_spec, h, hv]

end CRT

open CRT

/-- C1: the spec requires that on any out-of-range voltage
`calcular_posicion_final_electron` return a failure naming the violating
voltage and carrying no numeric payload; the code instead returns the
error together with fabricated `posicion_x = 0`, `posicion_y = 0`,
`dentro_pantalla = false` fields.  This theorem evaluates the code at one
failing input per voltage and exhibits the zero-filled payload. -/
theorem C1_invalid_voltage_yields_zero_filled_payload :
    calcular_posicion_final_electron (fun q => q) 100 0 0 =
      .err (.voltajeAceleracionFueraDeRango 100) 0 0 false ∧
    calcular_posicion_final_electron (fun q => q) 2000 300 0 =
      .err (.voltajeVerticalFueraDeRango 300) 0 0 false ∧
    calcular_posicion_final_electron (fun q => q) 2000 0 (-300) =
      .err (.voltajeHorizontalFueraDeRango (-300)) 0 0 false :=
  ⟨by decide, by decide, by decide⟩

/-- C2: for every acceleration voltage in [500, 5000] (and in-range
deflection voltages) the computation succeeds and the `velocidad_inicial`
field is the kinetic-energy closed form
sqrt(2·1.602176634e-19·V / 9.1093837015e-31). -/
theorem C2_velocidad_inicial_formula (sqrt : ℚ → ℚ) (va vv vh : ℚ)
    (ha : validar_voltaje_aceleracion va = true)
    (hv : validar_voltaje_vertical vv = true)
    (hh : validar_voltaje_horizontal vh = true) :
    ∃ r, calcular_posicion_final_electron sqrt va vv vh = .ok r ∧
      r.velocidad_inicial = sqrt (2 * 1.602176634e-19 * va / 9.1093837015e-31) := by
  rw [calcular_posicion_final_electron_of_valid sqrt va vv vh ha hv hh]
  refine ⟨_, rfl, ?_⟩
  show sqrt (2 * (|CARGA_ELECTRON| * va) / MASA_ELECTRON) = _
  refine congrArg sqrt ?_
  simp only [CARGA_ELECTRON, MASA_ELECTRON]
  rw [abs_neg, abs_of_nonneg (by norm_num)]
  ring

/-- Witness for C2 at the concrete triple (2000, 0, 0). -/
theorem C2_velocidad_inicial_formula_witness :
    validar_voltaje_aceleracion 2000 = true ∧
    validar_voltaje_vertical 0 = true ∧
    validar_voltaje_horizontal 0 = true ∧
    ∃ r, calcular_posicion_final_electron (fun q => q) 2000 0 0 = .ok r ∧
      r.velocidad_inicial = (fun q => q) (2 * 1.602176634e-19 * 2000 / 9.1093837015e-31) :=
  ⟨by decide, by decide, by decide,
    C2_velocidad_inicial_formula (fun q => q) 2000 0 0 (by decide) (by decide) (by decide)⟩

/-- C3: for every valid voltage triple the final position decomposes as
the stage-2-5 vertical sum and the stage-4-5 horizontal sum, with every
transit time formed from the unchanged initial speed
(`r.velocidad_inicial`). -/
theorem C3_descomposicion_posicion_final (sqrt : ℚ → ℚ) (va vv vh : ℚ)
    (ha : validar_voltaje_aceleracion va = true)
    (hv : validar_voltaje_vertical vv = true)
    (hh : validar_voltaje_horizontal vh = true) :
    ∃ r, calcular_posicion_final_electron sqrt va vv vh = .ok r ∧
      r.posicion_y = contribucion_y_spec r.velocidad_inicial vv ∧
      r.posicion_x = contribucion_x_spec r.velocidad_inicial vh := by
  rw [calcular_posicion_final_electron_of_valid sqrt va vv vh ha hv hh]
  exact ⟨_, rfl, rfl, rfl⟩

/-- Witness for C3 at the concrete triple (2000, 100, -50). -/
theorem C3_descomposicion_posicion_final_witness :
    validar_voltaje_aceleracion 2000 = true ∧
    validar_voltaje_vertical 100 = true ∧
    validar_voltaje_horizontal (-50) = true ∧
    ∃ r, calcular_posicion_final_electron (fun q => q) 2000 100 (-50) = .ok r ∧
      r.posicion_y = contribucion_y_spec r.velocidad_inicial 100 ∧
      r.posicion_x = contribucion_x_spec r.velocidad_inicial (-50) :=
  ⟨by decide, by decide, by decide,
    C3_descomposicion_posicion_final (fun q => q) 2000 100 (-50)
      (by decide) (by decide) (by decide)⟩

/-- C4, counterexample: the claim says `generar_voltajes_lissajous` fails
whenever any of the six fields is out of range, but a vertical phase of 7
radians — outside [0, 2π] — is accepted: the code never range-checks the
phases at sampling time. -/
theorem C4_fase_fuera_de_rango_aceptada :
    validar_fase 7 = false ∧
    generar_voltajes_lissajous (fun _ => 0) 0
        ⟨some 1, some 7, some 100, some 1, some 0, some 100⟩ = .ok ⟨0, 0, 0⟩ := by
  refine ⟨validar_fase_7, ?_⟩
  rw [generar_voltajes_ok_of_valid (fun _ => 0) 0 1 7 100 1 0 100
    validar_frecuencia_1 validar_amplitud_vertical_100
    validar_frecuencia_1 validar_amplitud_horizontal_100]
  norm_num [VOLTAJE_VERTICAL_MIN, VOLTAJE_VERTICAL_MAX,
    VOLTAJE_HORIZONTAL_MIN, VOLTAJE_HORIZONTAL_MAX]

/-- C4, amended: `generar_voltajes_lissajous` fails on the first absent
field (in `required_keys` order), and on an out-of-range frequency or
amplitude (vertical frequency, vertical amplitude, horizontal frequency,
horizontal amplitude, in that order); phases are never range-checked; on a
complete configuration whose frequencies and amplitudes are in range —
whatever the phases — it succeeds. -/
theorem C4_validacion_de_configuracion :
    (∀ (sen : ℚ → ℚ) (t : ℚ) (f2 f3 f4 f5 f6 : Option ℚ),
      generar_voltajes_lissajous sen t ⟨none, f2, f3, f4, f5, f6⟩ =
        .err (.faltaParametro "frecuencia_vertical") 0 0 t) ∧
    (∀ (sen : ℚ → ℚ) (t fv : ℚ) (f3 f4 f5 f6 : Option ℚ),
      generar_voltajes_lissajous sen t ⟨some fv, none, f3, f4, f5, f6⟩ =
        .err (.faltaParametro "fase_vertical") 0 0 t) ∧
    (∀ (sen : ℚ → ℚ) (t fv φv : ℚ) (f4 f5 f6 : Option ℚ),
      generar_voltajes_lissajous sen t ⟨some fv, some φv, none, f4, f5, f6⟩ =
        .err (.faltaParametro "amplitud_vertical") 0 0 t) ∧
    (∀ (sen : ℚ → ℚ) (t fv φv Av : ℚ) (f5 f6 : Option ℚ),
      generar_voltajes_lissajous sen t ⟨some fv, some φv, some Av, none, f5, f6⟩ =
        .err (.faltaParametro "frecuencia_horizontal") 0 0 t) ∧
    (∀ (sen : ℚ → ℚ) (t fv φv Av fh : ℚ) (f6 : Option ℚ),
      generar_voltajes_lissajous sen t ⟨some fv, some φv, some Av, some fh, none, f6⟩ =
        .err (.faltaParametro "fase_horizontal") 0 0 t) ∧
    (∀ (sen : ℚ → ℚ) (t fv φv Av fh φh : ℚ),
      generar_voltajes_lissajous sen t ⟨some fv, some φv, some Av, some fh, some φh, none⟩ =
        .err (.faltaParametro "amplitud_horizontal") 0 0 t) ∧
    (∀ (sen : ℚ → ℚ) (t fv φv Av fh φh Ah : ℚ),
      validar_frecuencia fv = false →
      generar_voltajes_lissajous sen t ⟨some fv, some φv, some Av, some fh, some φh, some Ah⟩ =
        .err (.frecuenciaVerticalFueraDeRango fv) 0 0 t) ∧
    (∀ (sen : ℚ → ℚ) (t fv φv Av fh φh Ah : ℚ),
      validar_frecuencia fv = true → validar_amplitud_vertical Av = false →
      generar_voltajes_lissajous sen t ⟨some fv, some φv, some Av, some fh, some φh, some Ah⟩ =
        .err (.amplitudVerticalFueraDeRango Av) 0 0 t) ∧
    (∀ (sen : ℚ → ℚ) (t fv φv Av fh φh Ah : ℚ),
      validar_frecuencia fv = true → validar_amplitud_vertical Av = true →
      validar_frecuencia fh = false →
      generar_voltajes_lissajous sen t ⟨some fv, some φv, some Av, some fh, some φh, some Ah⟩ =
        .err (.frecuenciaHorizontalFueraDeRango fh) 0 0 t) ∧
    (∀ (sen : ℚ → ℚ) (t fv φv Av fh φh Ah : ℚ),
      validar_frecuencia fv = true → validar_amplitud_vertical Av = true →
      validar_frecuencia fh = true → validar_amplitud_horizontal Ah = false →
      generar_voltajes_lissajous sen t ⟨some fv, some φv, some Av, some fh, some φh, some Ah⟩ =
        .err (.amplitudHorizontalFueraDeRango Ah) 0 0 t) ∧
    (∀ (sen : ℚ → ℚ) (t fv φv Av fh φh Ah : ℚ),
      validar_frecuencia fv = true → validar_amplitud_vertical Av = true →
      validar_frecuencia fh = true → validar_amplitud_horizontal Ah = true →
      ∃ s, generar_voltajes_lissajous sen t
        ⟨some fv, some φv, some Av, some fh, some φh, some Ah⟩ = .ok s) := by
  refine ⟨?_, ?_, ?_, ?_, ?_, ?_, ?_, ?_, ?_, ?_, ?_⟩
  · intro sen t f2 f3 f4 f5 f6; rfl
  · intro sen t fv f3 f4 f5 f6; rfl
  · intro sen t fv φv f4 f5 f6; rfl
  · intro sen t fv φv Av f5 f6; rfl
  · intro sen t fv φv Av fh f6; rfl
  · intro sen t fv φv Av fh φh; rfl
  · intro sen t fv φv Av fh φh Ah h1
    unfold generar_voltajes_lissajous generar_voltajes_core requireParam
      generar_senal_vertical
    simp only [Bind.bind, Except.bind, h1]
    rfl
  · intro sen t fv φv Av fh φh Ah h1 h2
    unfold generar_voltajes_lissajous generar_voltajes_core requireParam
      generar_senal_vertical
    simp only [Bind.bind, Except.bind, h1, h2]
    rfl
  · intro sen t fv φv Av fh φh Ah h1 h2 h3
    unfold generar_voltajes_lissajous generar_voltajes_core requireParam
      generar_senal_vertical generar_senal_horizontal
    simp only [Bind.bind, Except.bind, h1, h2, h3]
    rfl
  · intro sen t fv φv Av fh φh Ah h1 h2 h3 h4
    unfold generar_voltajes_lissajous generar_voltajes_core requireParam
      generar_senal_vertical generar_senal_horizontal
    simp only [Bind.bind, Except.bind, h1, h2, h3, h4]
    rfl
  · intro sen t fv φv Av fh φh Ah h1 h2 h3 h4
    exact ⟨_, generar_voltajes_ok_of_valid sen t fv φv Av fh φh Ah h1 h2 h3 h4⟩

/-- Witness for C4 (amended): one out-of-range frequency failure and one
success, at concrete inputs. -/
theorem C4_validacion_de_configuracion_witness :
    validar_frecuencia 50 = false ∧
    generar_voltajes_lissajous (fun _ => 0) 0
        ⟨some 50, some 0, some 100, some 1, some 0, some 100⟩ =
      .err (.frecuenciaVerticalFueraDeRango 50) 0 0 0 ∧
    validar_frecuencia 1 = true ∧ validar_amplitud_vertical 100 = true ∧
    validar_amplitud_horizontal 100 = true ∧
    ∃ s, generar_voltajes_lissajous (fun _ => 0) 0
        ⟨some 1, some 0, some 100, some 1, some 0, some 100⟩ = .ok s :=
  ⟨validar_frecuencia_50,
    C4_validacion_de_configuracion.2.2.2.2.2.2.1 (fun _ => 0) 0 50 0 100 1 0 100
      validar_frecuencia_50,
    validar_frecuencia_1, validar_amplitud_vertical_100, validar_amplitud_horizontal_100,
    C4_validacion_de_configuracion.2.2.2.2.2.2.2.2.2.2 (fun _ => 0) 0 1 0 100 1 0 100
      validar_frecuencia_1 validar_amplitud_vertical_100
      validar_frecuencia_1 validar_amplitud_horizontal_100⟩

/-- C5: every successful sample has both voltages inside the legal
intervals, which the parameter catalog fixes at [-200, 200] for both
axes. -/
theorem C5_voltajes_acotados (sen : ℚ → ℚ) (t : ℚ) (config : ConfigMap)
    (s : SignalSample) (h : generar_voltajes_lissajous sen t config = .ok s) :
    VOLTAJE_VERTICAL_MIN = -200 ∧ VOLTAJE_VERTICAL_MAX = 200 ∧
    VOLTAJE_HORIZONTAL_MIN = -200 ∧ VOLTAJE_HORIZONTAL_MAX = 200 ∧
    -200 ≤ s.voltaje_vertical ∧ s.voltaje_vertical ≤ 200 ∧
    -200 ≤ s.voltaje_horizontal ∧ s.voltaje_horizontal ≤ 200 := by
  obtain ⟨-, h1, h2, h3, h4⟩ := generar_voltajes_ok_inv h
  exact ⟨rfl, rfl, rfl, rfl, h1, h2, h3, h4⟩

/-- Witness for C5 at a concrete configuration and a constant-one sine. -/
theorem C5_voltajes_acotados_witness :
    generar_voltajes_lissajous (fun _ => 1) 0
        ⟨some 1, some 0, some 100, some 1, some 0, some 100⟩ = .ok ⟨100, 100, 0⟩ ∧
    (VOLTAJE_VERTICAL_MIN = -200 ∧ VOLTAJE_VERTICAL_MAX = 200 ∧
     VOLTAJE_HORIZONTAL_MIN = -200 ∧ VOLTAJE_HORIZONTAL_MAX = 200 ∧
     -200 ≤ (SignalSample.mk 100 100 0).voltaje_vertical ∧
     (SignalSample.mk 100 100 0).voltaje_vertical ≤ 200 ∧
     -200 ≤ (SignalSample.mk 100 100 0).voltaje_horizontal ∧
     (SignalSample.mk 100 100 0).voltaje_horizontal ≤ 200) :=
  have h : generar_voltajes_lissajous (fun _ => 1) 0
      ⟨some 1, some 0, some 100, some 1, some 0, some 100⟩ = .ok ⟨100, 100, 0⟩ := by
    rw [generar_voltajes_ok_of_valid (fun _ => 1) 0 1 0 100 1 0 100
      validar_frecuencia_1 validar_amplitud_vertical_100
      validar_frecuencia_1 validar_amplitud_horizontal_100]
    norm_num [VOLTAJE_VERTICAL_MIN, VOLTAJE_VERTICAL_MAX,
      VOLTAJE_HORIZONTAL_MIN, VOLTAJE_HORIZONTAL_MAX]
  ⟨h, C5_voltajes_acotados (fun _ => 1) 0 _ _ h⟩

/-- C6: `actualizar_parametros_lissajous` is total and merges per field —
each field of the returned configuration is the patch value when present
and valid, otherwise the current value; an empty patch returns the input
configuration unchanged. -/
theorem C6_fusion_por_campo (c : LissajousConfig) (p : ConfigMap) :
    ((actualizar_parametros_lissajous c p).2.frecuencia_vertical =
      campo_fusionado_spec validar_frecuencia p.frecuencia_vertical c.frecuencia_vertical) ∧
    ((actualizar_parametros_lissajous c p).2.fase_vertical =
      campo_fusionado_spec validar_fase p.fase_vertical c.fase_vertical) ∧
    ((actualizar_parametros_lissajous c p).2.amplitud_vertical =
      campo_fusionado_spec validar_amplitud_vertical p.amplitud_vertical c.amplitud_vertical) ∧
    ((actualizar_parametros_lissajous c p).2.frecuencia_horizontal =
      campo_fusionado_spec validar_frecuencia p.frecuencia_horizontal c.frecuencia_horizontal) ∧
    ((actualizar_parametros_lissajous c p).2.fase_horizontal =
      campo_fusionado_spec validar_fase p.fase_horizontal c.fase_horizontal) ∧
    ((actualizar_parametros_lissajous c p).2.amplitud_horizontal =
      campo_fusionado_spec validar_amplitud_horizontal p.amplitud_horizontal c.amplitud_horizontal) ∧
    ((actualizar_parametros_lissajous c ⟨none, none, none, none, none, none⟩).2 = c) := by
  refine ⟨?_, ?_, ?_, ?_, ?_, ?_, rfl⟩ <;>
    simp only [actualizar_parametros_lissajous,
      paso_frecuencia_vertical_eq, paso_fase_vertical_eq, paso_amplitud_vertical_eq,
      paso_frecuencia_horizontal_eq, paso_fase_horizontal_eq, paso_amplitud_horizontal_eq]

/-- C7: the sequence has exactly floor(duration × fps) frames; frame k is
evaluated at time k / fps, and a successful frame carries that time. -/
theorem C7_secuencia_de_muestras (sen : ℚ → ℚ) (config : ConfigMap) (d fps : ℚ)
    (hd : 0 ≤ d) (hfps : 0 < fps) :
    (generar_secuencia_lissajous sen config d fps).length = (⌊d * fps⌋).toNat ∧
    (∀ k (hk : k < (generar_secuencia_lissajous sen config d fps).length),
      (generar_secuencia_lissajous sen config d fps).get ⟨k, hk⟩ =
        { voltajes := generar_voltajes_lissajous sen ((k : ℚ) / fps) config
          frame := k
          tiempo_total := d
          fps := fps }) ∧
    (∀ k (hk : k < (generar_secuencia_lissajous sen config d fps).length) s,
      ((generar_secuencia_lissajous sen config d fps).get ⟨k, hk⟩).voltajes = .ok s →
        s.tiempo = (k : ℚ) / fps) := by
  have hlen : (generar_secuencia_lissajous sen config d fps).length =
      (⌊d * fps⌋).toNat := by
    unfold generar_secuencia_lissajous pyInt
    rw [if_pos (mul_nonneg hd hfps.le)]
    simp
  have hget : ∀ k (hk : k < (generar_secuencia_lissajous sen config d fps).length),
      (generar_secuencia_lissajous sen config d fps).get ⟨k, hk⟩ =
        { voltajes := generar_voltajes_lissajous sen ((k : ℚ) / fps) config
          frame := k
          tiempo_total := d
          fps := fps } := by
    intro k hk
    unfold generar_secuencia_lissajous at hk ⊢
    simp [List.get_eq_getElem, List.getElem_map]
  refine ⟨hlen, hget, ?_⟩
  intro k hk s hs
  rw [hget k hk] at hs
  obtain ⟨ht, -, -, -, -⟩ := generar_voltajes_ok_inv hs
  rw [ht]
  exact max_eq_right (div_nonneg (Nat.cast_nonneg k) hfps.le)

/-- Witness for C7: duration 2.0 at 10 fps yields exactly 20 samples. -/
theorem C7_secuencia_de_muestras_witness :
    (0 : ℚ) ≤ 2 ∧ (0 : ℚ) < 10 ∧
    (generar_secuencia_lissajous (fun _ => 0)
      ⟨some 1, some 0, some 100, some 1, some 0, some 100⟩ 2 10).length =
        (⌊(2 : ℚ) * 10⌋).toNat ∧
    (⌊(2 : ℚ) * 10⌋).toNat = 20 :=
  ⟨by norm_num, by norm_num,
    (C7_secuencia_de_muestras (fun _ => 0)
      ⟨some 1, some 0, some 100, some 1, some 0, some 100⟩ 2 10
      (by norm_num) (by norm_num)).1,
    by norm_num; decide⟩

/-- C8: for positive frequencies the period is exactly
10 × max(1/vf, 1/hf) — the coarse approximation, as the spec states. -/
theorem C8_periodo_aproximado (fv fh : ℚ) (h1 : 0 < fv) (h2 : 0 < fh) :
    calcular_periodo_lissajous fv fh = 10 * max (1 / fv) (1 / fh) := by
  unfold calcular_periodo_lissajous
  rw [mul_comm]
  norm_num

/-- Witness for C8 at frequencies (1, 2). -/
theorem C8_periodo_aproximado_witness :
    (0 : ℚ) < 1 ∧ (0 : ℚ) < 2 ∧
    calcular_periodo_lissajous 1 2 = 10 * max ((1 : ℚ) / 1) (1 / 2) :=
  ⟨by norm_num, by norm_num, C8_periodo_aproximado 1 2 (by norm_num) (by norm_num)⟩

/-- C9: the caller's configuration object is unchanged by
`actualizar_parametros_lissajous`: all updates go to the copy, and the
first component — the caller's object after the call — is the input. -/
theorem C9_sin_mutacion_del_argumento (c : LissajousConfig) (p : ConfigMap) :
    (actualizar_parametros_lissajous c p).1 = c := rfl

/-- C10: the amplitude validators test only the upper bound
`amplitud ≤ 200` — a negative amplitude such as -1000 passes, sampling
succeeds, and the output voltages are still confined to [-200, 200] by the
clamping step alone. -/
theorem C10_amplitud_sin_cota_inferior :
    (∀ a : ℚ, validar_amplitud_vertical a = decide (a ≤ 200)) ∧
    (∀ a : ℚ, validar_amplitud_horizontal a = decide (a ≤ 200)) ∧
    validar_amplitud_vertical (-1000) = true ∧
    validar_amplitud_horizontal (-1000) = true ∧
    (∀ (sen : ℚ → ℚ) (t : ℚ), ∃ s,
      generar_voltajes_lissajous sen t
        ⟨some 1, some 0, some (-1000), some 1, some 0, some (-1000)⟩ = .ok s ∧
      -200 ≤ s.voltaje_vertical ∧ s.voltaje_vertical ≤ 200 ∧
      -200 ≤ s.voltaje_horizontal ∧ s.voltaje_horizontal ≤ 200) := by
  have hminv : min |VOLTAJE_VERTICAL_MIN| |VOLTAJE_VERTICAL_MAX| = (200 : ℚ) := by
    norm_num [VOLTAJE_VERTICAL_MIN, VOLTAJE_VERTICAL_MAX]
  have hminh : min |VOLTAJE_HORIZONTAL_MIN| |VOLTAJE_HORIZONTAL_MAX| = (200 : ℚ) := by
    norm_num [VOLTAJE_HORIZONTAL_MIN, VOLTAJE_HORIZONTAL_MAX]
  refine ⟨?_, ?_, validar_amplitud_vertical_neg1000, validar_amplitud_horizontal_neg1000, ?_⟩
  · intro a; unfold validar_amplitud_vertical; rw [hminv]
  · intro a; unfold validar_amplitud_horizontal; rw [hminh]
  · intro sen t
    refine ⟨_, generar_voltajes_ok_of_valid sen t 1 0 (-1000) 1 0 (-1000)
      validar_frecuencia_1 validar_amplitud_vertical_neg1000
      validar_frecuencia_1 validar_amplitud_horizontal_neg1000, ?_, ?_, ?_, ?_⟩
    · exact le_max_left _ _
    · exact max_le (by norm_num [VOLTAJE_VERTICAL_MIN]) (min_le_left _ _)
    · exact le_max_left _ _
    · exact max_le (by norm_num [VOLTAJE_HORIZONTAL_MIN]) (min_le_left _ _)
